import Mathlib

/-!
Verification of the adaptive control plane of the video encoding pipeline
(webrtc video_coding `VideoSender` and its collaborators), checked against
`src/webrtc/modules/video_coding/video_sender_unittest.cc` and the
natural-language specification. The production core itself is not in the
source tree (only its unit tests are), so the component definitions below
are modelled from the specification, calibrated against the behavioural
fixtures of the unit tests.
-/

namespace VcmSpec

/-- Per-stream frame type, as in the `FrameType` enum used by the tests
(`kVideoFrameKey` / `kVideoFrameDelta`). -/
inductive FrameType where
  | Key : FrameType
  | Delta : FrameType
deriving DecidableEq, Repr

/-- Result of a keyframe request: `0` (Ok) or `-1` (InvalidIndex) in the
test's integer encoding. -/
inductive IntraResult where
  | ok : IntraResult
  | invalidIndex : IntraResult
deriving DecidableEq, Repr

/-- Modelled from the spec: `IntraRequestScheduler` keeps per-stream
pending-keyframe flags; `pending.length` is the configured stream count
(the production scheduler inside `VideoSender` is not in the source tree). -/
structure IntraRequestScheduler where
  pending : List Bool
deriving DecidableEq, Repr

/-- A scheduler for `n` streams with no pending keyframe request. -/
def IntraRequestScheduler.empty (n : Nat) : IntraRequestScheduler :=
  ⟨List.replicate n false⟩

/-- Modelled from the spec: `RequestIntraFrame(streamIndex)` fails with
`InvalidIndex` and makes no state change when the index is negative or
at least the configured stream count; on success it marks the index
pending. -/
def RequestIntraFrame (s : IntraRequestScheduler) (idx : Int) :
    IntraResult × IntraRequestScheduler :=
  if 0 ≤ idx ∧ idx < (s.pending.length : Int) then
    (.ok, ⟨s.pending.set idx.toNat true⟩)
  else
    (.invalidIndex, s)

/-- Modelled from the spec: `BuildFrameTypeVector` produces `Key` for every
pending index, `Delta` for all others, and clears every pending flag as a
side effect (at-most-once delivery of a keyframe per request). -/
def BuildFrameTypeVector (s : IntraRequestScheduler) :
    List FrameType × IntraRequestScheduler :=
  (s.pending.map (fun b => if b then FrameType.Key else FrameType.Delta),
   ⟨List.replicate s.pending.length false⟩)

/-- Modelled from the spec: `FrameCadenceTracker` maintains a sliding window
of frame arrival timestamps, oldest first (the production tracker inside
media optimization is not in the source tree). -/
structure FrameCadenceTracker where
  samples : List Int
deriving DecidableEq, Repr

/-- A tracker with no recorded frames. -/
def FrameCadenceTracker.empty : FrameCadenceTracker := ⟨[]⟩

/-- Modelled from the spec: `RecordFrame(timestampMs)` appends a sample. -/
def RecordFrame (t : FrameCadenceTracker) (timestampMs : Int) :
    FrameCadenceTracker :=
  ⟨t.samples ++ [timestampMs]⟩

/-- The rate-statistics window of 2000 ms used by the cadence estimate
(`kRateStatsWindowMs` in the tests). -/
def windowMs : Int := 2000

/-- Modelled from the spec: `EstimateFps(nowMs)` returns the number of
frames in the 2000 ms window times 1000, divided by the elapsed time
between the oldest retained sample and `nowMs`; it fails softly (returns
no estimate) when no sample is retained or no time has elapsed. -/
def EstimateFps (t : FrameCadenceTracker) (nowMs : Int) : Option ℚ :=
  let retained := t.samples.filter (fun s => decide (nowMs - s ≤ windowMs))
  match retained.head? with
  | none => none
  | some oldest =>
    if 0 < nowMs - oldest then
      some ((retained.length : ℚ) * 1000 / ((nowMs - oldest : Int) : ℚ))
    else none

/-- A bitrate/framerate pair as last delivered to the encoder capability. -/
structure Rates where
  bitrateKbps : ℚ
  framerateFps : ℚ
deriving DecidableEq, Repr

/-- A loss-fraction/round-trip-time pair as last delivered to the encoder
capability. -/
structure ChannelParams where
  lossFraction : Nat
  rttMs : Nat
deriving DecidableEq, Repr

/-- Calls issued to the encoder capability, recorded as an observable trace
(what the tests observe through the mock encoder). -/
inductive EncoderCall where
  | setRates (bitrateKbps framerateFps : ℚ) : EncoderCall
  | setChannelParameters (lossFraction rttMs : Nat) : EncoderCall
  | encode (frameTypes : List FrameType) : EncoderCall
deriving DecidableEq, Repr

/-- True exactly on `SetRates` calls. -/
def EncoderCall.isSetRates : EncoderCall → Bool
  | .setRates _ _ => true
  | _ => false

/-- True exactly on `SetChannelParameters` calls. -/
def EncoderCall.isSetChannelParams : EncoderCall → Bool
  | .setChannelParameters _ _ => true
  | _ => false

/-- Modelled from the spec: `ChannelAdaptationController` owns the channel
feedback, the cached framerate estimate, and the two suppression caches
`LastSentRates` / `LastSentChannelParams` (the production controller, in
media optimization and the generic encoder, is not in the source tree). -/
structure ChannelAdaptationController where
  targetBitrateBps : Nat
  lossFraction : Nat
  rttMs : Nat
  framerateFps : ℚ
  lastSentRates : Option Rates
  lastSentChannelParams : Option ChannelParams
deriving DecidableEq, Repr

/-- Modelled from the spec: `OnChannelParameters` updates the stored channel
feedback, recomputes the encoder targets from the new bitrate and the last
known framerate estimate, and issues `SetRates` only if either value
differs from `LastSentRates` and `SetChannelParameters` only if either
value differs from `LastSentChannelParams`; both caches then hold the
computed values. The encoder capability is modelled as accepting every
call (the tests' mock returns 0). -/
def OnChannelParameters (c : ChannelAdaptationController)
    (bitrateBps lossFraction rttMs : Nat) :
    ChannelAdaptationController × List EncoderCall :=
  let newRates : Rates := ⟨(bitrateBps : ℚ) / 1000, c.framerateFps⟩
  let newCp : ChannelParams := ⟨lossFraction, rttMs⟩
  let ratesCalls :=
    if c.lastSentRates = some newRates then []
    else [EncoderCall.setRates newRates.bitrateKbps newRates.framerateFps]
  let cpCalls :=
    if c.lastSentChannelParams = some newCp then []
    else [EncoderCall.setChannelParameters lossFraction rttMs]
  ({ targetBitrateBps := bitrateBps, lossFraction := lossFraction,
     rttMs := rttMs, framerateFps := c.framerateFps,
     lastSentRates := some newRates, lastSentChannelParams := some newCp },
   ratesCalls ++ cpCalls)

/-- Modelled from the spec: `OnTick` recomputes the framerate estimate from
the cadence tracker; when no estimate is available it silently does
nothing, and when the estimate differs from the cached framerate it
recomputes the targets with the unchanged bitrate and applies the same
suppression rule for `SetRates`. -/
def OnTick (c : ChannelAdaptationController) (t : FrameCadenceTracker)
    (nowMs : Int) : ChannelAdaptationController × List EncoderCall :=
  match EstimateFps t nowMs with
  | none => (c, [])
  | some f =>
    if f = c.framerateFps then (c, [])
    else
      let newRates : Rates := ⟨(c.targetBitrateBps : ℚ) / 1000, f⟩
      if c.lastSentRates = some newRates then
        ({ c with framerateFps := f, lastSentRates := some newRates }, [])
      else
        ({ c with framerateFps := f, lastSentRates := some newRates },
         [EncoderCall.setRates newRates.bitrateKbps newRates.framerateFps])

/-- Modelled from the spec: the `EncodePipeline` orchestrator (the
production `VideoSender` is not in the source tree); `internalCapture`
records whether the registered external encoder has internal capture
enabled. -/
structure EncodePipeline where
  scheduler : IntraRequestScheduler
  tracker : FrameCadenceTracker
  controller : ChannelAdaptationController
  internalCapture : Bool
deriving DecidableEq, Repr

/-- Modelled from the spec: `Submit` records the frame arrival in the
cadence tracker, computes the frame-type vector exactly once, and invokes
the encoder with it. -/
def Submit (p : EncodePipeline) (arrivalTimestampMs : Int) :
    EncodePipeline × List EncoderCall :=
  let tracker := RecordFrame p.tracker arrivalTimestampMs
  let bv := BuildFrameTypeVector p.scheduler
  ({ p with tracker := tracker, scheduler := bv.2 },
   [EncoderCall.encode bv.1])

/-- Modelled from the spec and the `TestIntraRequestsInternalCapture`
fixture: `IntraFrameRequest` delegates to the scheduler; with an
internal-capture encoder registered, a valid request by itself triggers one
`Encode` call carrying the frame-type vector (consuming the pending set),
while an invalid request triggers nothing. -/
def IntraFrameRequest (p : EncodePipeline) (idx : Int) :
    IntraResult × EncodePipeline × List EncoderCall :=
  match RequestIntraFrame p.scheduler idx with
  | (.invalidIndex, s) => (.invalidIndex, { p with scheduler := s }, [])
  | (.ok, s) =>
    if p.internalCapture then
      let bv := BuildFrameTypeVector s
      (.ok, { p with scheduler := bv.2 }, [EncoderCall.encode bv.1])
    else
      (.ok, { p with scheduler := s }, [])

/-- Result signal of the pipeline's public entries (`VCM_OK` or an error). -/
inductive VcmResult where
  | ok : VcmResult
  | error : VcmResult
deriving DecidableEq, Repr

/-- Modelled from the spec: `Process` delegates to `OnTick`; an unavailable
cadence estimate is silently skipped and is not an error to the caller
(`EncoderRejected` cannot arise here because the encoder capability is
modelled as accepting every call, as the tests' mock does). -/
def Process (p : EncodePipeline) (nowMs : Int) :
    VcmResult × EncodePipeline × List EncoderCall :=
  let r := OnTick p.controller p.tracker nowMs
  (.ok, { p with controller := r.1 }, r.2)

/-- Modelled from the spec and the `InsertFrames` fixture: the public
`SetChannelParameters` entry needs to calculate the input framerate and
fails when fewer than 2 frames are buffered (the tests guard their calls
with `if (i != 0)` for exactly this reason, see
video_sender_unittest.cc:397-401); otherwise it delegates to
`ChannelAdaptationController.OnChannelParameters`. -/
def SetChannelParameters (p : EncodePipeline)
    (bitrateBps lossFraction rttMs : Nat) :
    VcmResult × EncodePipeline × List EncoderCall :=
  if p.tracker.samples.length < 2 then
    (.error, p, [])
  else
    let r := OnChannelParameters p.controller bitrateBps lossFraction rttMs
    (.ok, { p with controller := r.1 }, r.2)

/-- Per-layer cumulative bitrate and framerate targets, index = temporal
layer. -/
structure LayerAllocation where
  perLayerBitrateKbps : List ℚ
  perLayerFramerateFps : List ℚ
deriving DecidableEq, Repr

/-- Failure signal of the allocation strategies. -/
inductive AllocError where
  | invalidConfiguration : AllocError
deriving DecidableEq, Repr

/-- Modelled from the spec: cumulative bitrate fraction of layer `k` in an
`m`-layer configuration; the 3-layer row {0.4, 0.6, 1.0} is pinned by the
test fixtures (`kVp8LayerRateAlloction[2]` in the fixed-strategy test and
the literal fractions in the real-time test), the 2-layer row {0.6, 1.0} by
the same calibration table. -/
def bitrateFraction : Nat → Nat → ℚ
  | 1, _ => 1
  | 2, 0 => 3 / 5
  | 2, _ => 1
  | 3, 0 => 2 / 5
  | 3, 1 => 3 / 5
  | 3, _ => 1
  | _, _ => 1

namespace FixedAllocation

/-- Modelled from the spec: `FixedAllocation.ComputeAllocation` fails with
`InvalidConfiguration` when the layer count is outside [1,3] or the total
bitrate is not positive; otherwise the bitrate split is the static fraction
table and layer `k` of `N` gets `1 / 2 ^ (N - 1 - k)` of the total
framerate (for 3 layers: 1/4, 1/2, 1). -/
def ComputeAllocation (totalBitrateKbps totalFramerateFps : ℚ)
    (layerCount : Nat) : Except AllocError LayerAllocation :=
  if layerCount < 1 ∨ 3 < layerCount ∨ totalBitrateKbps ≤ 0 then
    .error .invalidConfiguration
  else
    .ok ⟨(List.range layerCount).map
           (fun k => bitrateFraction layerCount k * totalBitrateKbps),
         (List.range layerCount).map
           (fun k => totalFramerateFps / 2 ^ (layerCount - 1 - k))⟩

end FixedAllocation

/-- Modelled from the spec: the number of temporal layers the real-time
strategy can sustain at a given input framerate; the thresholds are pinned
by the behavioural scenarios (3 layers at 30 and 20 fps, 2 at 15 and 10
fps, 1 at 7 fps). -/
def layersForFramerate (fps : ℚ) : Nat :=
  if 20 ≤ fps then 3 else if 10 ≤ fps then 2 else 1

namespace RealTimeAllocation

/-- Modelled from the spec: `RealTimeAllocation.ComputeAllocation` uses the
same nominal fraction tables as the fixed strategy but collapses the lowest
layers when the input framerate cannot sustain them: with `m` effective
layers, nominal layer `k` is folded into effective layer `min k (m-1)`, so
a collapsed layer inherits the bitrate and framerate of the layer it merged
into; at sufficiently low framerate all layers carry the full bitrate and
the input framerate. -/
def ComputeAllocation (totalBitrateKbps totalFramerateFps : ℚ)
    (layerCount : Nat) : Except AllocError LayerAllocation :=
  if layerCount < 1 ∨ 3 < layerCount ∨ totalBitrateKbps ≤ 0 then
    .error .invalidConfiguration
  else
    let m := min layerCount (layersForFramerate totalFramerateFps)
    .ok ⟨(List.range layerCount).map
           (fun k => bitrateFraction m (min k (m - 1)) * totalBitrateKbps),
         (List.range layerCount).map
           (fun k => totalFramerateFps / 2 ^ (m - 1 - min k (m - 1)))⟩

end RealTimeAllocation

/-- The layer-allocation invariant: both sequences are non-decreasing in
layer index and the top layer carries the full bitrate and framerate. -/
def AllocationInvariant (a : LayerAllocation) (b f : ℚ) : Prop :=
  a.perLayerBitrateKbps.Chain' (· ≤ ·) ∧
  a.perLayerFramerateFps.Chain' (· ≤ ·) ∧
  a.perLayerBitrateKbps.getLast? = some b ∧
  a.perLayerFramerateFps.getLast? = some f

/-- A pipeline over `n` configured streams with no pending keyframe
request. -/
def pipelineNoPending (n : Nat) (tr : FrameCadenceTracker)
    (c : ChannelAdaptationController) (ic : Bool) : EncodePipeline :=
  ⟨IntraRequestScheduler.empty n, tr, c, ic⟩

/-- The controller state right after codec registration in the mock-encoder
tests: rates are initialized through `InitEncode` (start bitrate 300 kbps at
the default 30 fps), and no channel parameters have been delivered yet. -/
def testController : ChannelAdaptationController :=
  { targetBitrateBps := 300000, lossFraction := 0, rttMs := 0,
    framerateFps := 30, lastSentRates := some ⟨300, 30⟩,
    lastSentChannelParams := none }

/-- A tracker fed `k` frames at a steady cadence of one frame every `d` ms
starting at `t0`, through `RecordFrame`. -/
def steadyTracker (t0 d : Int) (k : Nat) : FrameCadenceTracker :=
  (List.range k).foldl
    (fun tr (j : Nat) => RecordFrame tr (t0 + (j : Int) * d))
    FrameCadenceTracker.empty

end VcmSpec

namespace VcmSpec

theorem requestIntra_invalid (s : IntraRequestScheduler) (idx : Int)
    (h : idx < 0 ∨ (s.pending.length : Int) ≤ idx) :
    RequestIntraFrame s idx = (.invalidIndex, s) := by
  unfold RequestIntraFrame
  rw [if_neg]
  rintro ⟨h0, h1⟩
  rcases h with h | h
  · omega
  · omega

/-- C4: for every stream index that is negative or at least the configured
stream count, `RequestIntraFrame` returns `InvalidIndex` and leaves the
pending-keyframe state completely unchanged, so the next frame-type vector
is the same as if the request had never been made (all `Delta` when nothing
is pending). -/
theorem C4_invalid_index_no_state_change (s : IntraRequestScheduler) (idx : Int)
    (h : idx < 0 ∨ (s.pending.length : Int) ≤ idx) :
    RequestIntraFrame s idx = (.invalidIndex, s) :=
  requestIntra_invalid s idx h

/-- C4 witness: on a 3-stream configuration, indices 3 and -1 both fail with
`InvalidIndex`, leave the scheduler untouched, and the next frame's type
vector is `Delta` for every stream. -/
theorem C4_invalid_index_no_state_change_witness :
    RequestIntraFrame (IntraRequestScheduler.empty 3) 3 =
      (.invalidIndex, IntraRequestScheduler.empty 3) ∧
    RequestIntraFrame (IntraRequestScheduler.empty 3) (-1) =
      (.invalidIndex, IntraRequestScheduler.empty 3) ∧
    (BuildFrameTypeVector
        (RequestIntraFrame (IntraRequestScheduler.empty 3) 3).2).1 =
      [FrameType.Delta, FrameType.Delta, FrameType.Delta] :=
  ⟨C4_invalid_index_no_state_change _ _ (by decide),
   C4_invalid_index_no_state_change _ _ (by decide),
   by decide⟩

/-- C5: for every valid stream index `i`, after `RequestIntraFrame i` on a
scheduler with nothing pending, the next `BuildFrameTypeVector` produces
`Key` at index `i` and `Delta` at every other index, the consumption clears
the pending set, and a second consumption without a new request yields
`Delta` for every stream (in particular at `i`). -/
theorem C5_roundtrip_per_stream_independence (n i : Nat) (hi : i < n) :
    (RequestIntraFrame (IntraRequestScheduler.empty n) (i : Int)).1 = .ok ∧
    (BuildFrameTypeVector
        (RequestIntraFrame (IntraRequestScheduler.empty n) (i : Int)).2).1.length
      = n ∧
    (∀ j, j < n →
      (BuildFrameTypeVector
          (RequestIntraFrame (IntraRequestScheduler.empty n) (i : Int)).2).1[j]?
        = some (if j = i then FrameType.Key else FrameType.Delta)) ∧
    (BuildFrameTypeVector
        (RequestIntraFrame (IntraRequestScheduler.empty n) (i : Int)).2).2
      = IntraRequestScheduler.empty n ∧
    (BuildFrameTypeVector
        (BuildFrameTypeVector
          (RequestIntraFrame (IntraRequestScheduler.empty n) (i : Int)).2).2).1
      = List.replicate n FrameType.Delta := by
  have hcond : (0 : Int) ≤ (i : Int) ∧
      (i : Int) < (((IntraRequestScheduler.empty n).pending.length : Nat) : Int) := by
    constructor
    · exact Int.ofNat_nonneg i
    · simp [IntraRequestScheduler.empty]
      omega
  have hreq : RequestIntraFrame (IntraRequestScheduler.empty n) (i : Int) =
      (.ok, ⟨(List.replicate n false).set i true⟩) := by
    unfold RequestIntraFrame
    rw [if_pos hcond]
    simp [IntraRequestScheduler.empty]
  rw [hreq]
  refine ⟨rfl, ?_, ?_, ?_, ?_⟩
  · simp [BuildFrameTypeVector]
  · intro j hj
    simp only [BuildFrameTypeVector, List.getElem?_map]
    rcases eq_or_ne j i with h | h
    · subst h
      rw [List.getElem?_set_self (by simpa using hi)]
      simp
    · rw [List.getElem?_set_ne (Ne.symm h)]
      rw [List.getElem?_replicate_of_lt hj]
      simp [h]
  · simp [BuildFrameTypeVector, IntraRequestScheduler.empty]
  · simp [BuildFrameTypeVector]

theorem requestIntra_empty_ok (n i : Nat) (hi : i < n) :
    RequestIntraFrame (IntraRequestScheduler.empty n) (i : Int) =
      (.ok, ⟨(List.replicate n false).set i true⟩) := by
  have hcond : (0 : Int) ≤ (i : Int) ∧
      (i : Int) < ((IntraRequestScheduler.empty n).pending.length : Int) := by
    refine ⟨Int.ofNat_nonneg i, ?_⟩
    simp [IntraRequestScheduler.empty]
    omega
  unfold RequestIntraFrame
  rw [if_pos hcond]
  simp [IntraRequestScheduler.empty]

theorem requestIntra_single_ok (n i : Nat) (hi : i < n) :
    RequestIntraFrame ⟨(List.replicate n false).set i true⟩ (i : Int) =
      (.ok, ⟨(List.replicate n false).set i true⟩) := by
  have hcond : (0 : Int) ≤ (i : Int) ∧
      (i : Int) <
        (((⟨(List.replicate n false).set i true⟩ :
            IntraRequestScheduler)).pending.length : Int) := by
    refine ⟨Int.ofNat_nonneg i, ?_⟩
    simp
    omega
  unfold RequestIntraFrame
  rw [if_pos hcond]
  simp [List.set_set]

/-- C5 witness: concrete instance on a 3-stream configuration with a request
for stream 1. -/
theorem C5_roundtrip_per_stream_independence_witness :
    (1 : Nat) < 3 ∧
    ((RequestIntraFrame (IntraRequestScheduler.empty 3) ((1 : Nat) : Int)).1 = .ok ∧
    (BuildFrameTypeVector
        (RequestIntraFrame (IntraRequestScheduler.empty 3) ((1 : Nat) : Int)).2).1.length
      = 3 ∧
    (∀ j, j < 3 →
      (BuildFrameTypeVector
          (RequestIntraFrame (IntraRequestScheduler.empty 3) ((1 : Nat) : Int)).2).1[j]?
        = some (if j = 1 then FrameType.Key else FrameType.Delta)) ∧
    (BuildFrameTypeVector
        (RequestIntraFrame (IntraRequestScheduler.empty 3) ((1 : Nat) : Int)).2).2
      = IntraRequestScheduler.empty 3 ∧
    (BuildFrameTypeVector
        (BuildFrameTypeVector
          (RequestIntraFrame (IntraRequestScheduler.empty 3) ((1 : Nat) : Int)).2).2).1
      = List.replicate 3 FrameType.Delta) :=
  ⟨by decide, C5_roundtrip_per_stream_independence 3 1 (by decide)⟩

/-- C6: for every valid stream index `i`, requesting an intra frame twice
before any `Submit` has exactly the same effect as requesting once — the
pipeline states coincide, the next `Submit` encodes a frame-type vector
with exactly one `Key` (at index `i`, `Delta` at every other index), and
the `Submit` after that encodes `Delta` everywhere. -/
theorem C6_request_idempotent (tr : FrameCadenceTracker)
    (c : ChannelAdaptationController) (ts1 ts2 : Int) (n i : Nat)
    (hi : i < n) :
    (IntraFrameRequest
        (IntraFrameRequest (pipelineNoPending n tr c false) (i : Int)).2.1
        (i : Int)).2.1
      = (IntraFrameRequest (pipelineNoPending n tr c false) (i : Int)).2.1 ∧
    (∃ v, (Submit (IntraFrameRequest
        (IntraFrameRequest (pipelineNoPending n tr c false) (i : Int)).2.1
        (i : Int)).2.1 ts1).2 = [EncoderCall.encode v] ∧
      v.length = n ∧ v[i]? = some FrameType.Key ∧
      (∀ j, j < n → j ≠ i → v[j]? = some FrameType.Delta)) ∧
    (Submit (Submit (IntraFrameRequest
        (IntraFrameRequest (pipelineNoPending n tr c false) (i : Int)).2.1
        (i : Int)).2.1 ts1).1 ts2).2
      = [EncoderCall.encode (List.replicate n FrameType.Delta)] := by
  have h1 : IntraFrameRequest (pipelineNoPending n tr c false) (i : Int) =
      (.ok, ⟨⟨(List.replicate n false).set i true⟩, tr, c, false⟩, []) := by
    unfold IntraFrameRequest pipelineNoPending
    rw [requestIntra_empty_ok n i hi]
    rfl
  have h2 : IntraFrameRequest
      (⟨⟨(List.replicate n false).set i true⟩, tr, c, false⟩ : EncodePipeline)
      (i : Int) =
      (.ok, ⟨⟨(List.replicate n false).set i true⟩, tr, c, false⟩, []) := by
    unfold IntraFrameRequest
    rw [requestIntra_single_ok n i hi]
    rfl
  rw [h1]
  simp only
  rw [h2]
  simp only
  refine ⟨trivial, ?_, ?_⟩
  · refine ⟨((List.replicate n false).set i true).map
      (fun b => if b then FrameType.Key else FrameType.Delta), ?_, ?_, ?_, ?_⟩
    · simp [Submit, BuildFrameTypeVector]
    · simp
    · simp only [List.getElem?_map]
      rw [List.getElem?_set_self (by simpa using hi)]
      simp
    · intro j hj hne
      simp only [List.getElem?_map]
      rw [List.getElem?_set_ne (Ne.symm hne), List.getElem?_replicate_of_lt hj]
      simp
  · simp [Submit, BuildFrameTypeVector]

/-- C6 witness: concrete instance on a 3-stream configuration with a double
request for stream 2. -/
theorem C6_request_idempotent_witness :
    (2 : Nat) < 3 ∧
    ((IntraFrameRequest
        (IntraFrameRequest
          (pipelineNoPending 3 FrameCadenceTracker.empty testController false)
          ((2 : Nat) : Int)).2.1 ((2 : Nat) : Int)).2.1
      = (IntraFrameRequest
          (pipelineNoPending 3 FrameCadenceTracker.empty testController false)
          ((2 : Nat) : Int)).2.1 ∧
    (∃ v, (Submit (IntraFrameRequest
        (IntraFrameRequest
          (pipelineNoPending 3 FrameCadenceTracker.empty testController false)
          ((2 : Nat) : Int)).2.1 ((2 : Nat) : Int)).2.1 5).2
        = [EncoderCall.encode v] ∧
      v.length = 3 ∧ v[(2 : Nat)]? = some FrameType.Key ∧
      (∀ j, j < 3 → j ≠ 2 → v[j]? = some FrameType.Delta)) ∧
    (Submit (Submit (IntraFrameRequest
        (IntraFrameRequest
          (pipelineNoPending 3 FrameCadenceTracker.empty testController false)
          ((2 : Nat) : Int)).2.1 ((2 : Nat) : Int)).2.1 5).1 6).2
      = [EncoderCall.encode (List.replicate 3 FrameType.Delta)]) :=
  ⟨by decide,
   C6_request_idempotent FrameCadenceTracker.empty testController 5 6 3 2
     (by decide)⟩

/-- C10: with an internal-capture encoder registered, a valid
`IntraFrameRequest(i)` by itself triggers exactly one `Encode` call whose
frame-type vector is `Key` at index `i` and `Delta` at every other index,
without any frame being submitted; an out-of-range request triggers no
`Encode` call at all. -/
theorem C10_internal_capture_encode (tr : FrameCadenceTracker)
    (c : ChannelAdaptationController) (n : Nat) :
    (∀ i : Nat, i < n →
      ∃ v, IntraFrameRequest (pipelineNoPending n tr c true) (i : Int) =
          (.ok, pipelineNoPending n tr c true, [EncoderCall.encode v]) ∧
        v.length = n ∧ v[i]? = some FrameType.Key ∧
        (∀ j, j < n → j ≠ i → v[j]? = some FrameType.Delta)) ∧
    (∀ idx : Int, idx < 0 ∨ (n : Int) ≤ idx →
      IntraFrameRequest (pipelineNoPending n tr c true) idx =
        (.invalidIndex, pipelineNoPending n tr c true, [])) := by
  constructor
  · intro i hi
    refine ⟨((List.replicate n false).set i true).map
      (fun b => if b then FrameType.Key else FrameType.Delta), ?_, ?_, ?_, ?_⟩
    · unfold IntraFrameRequest pipelineNoPending
      rw [requestIntra_empty_ok n i hi]
      simp [BuildFrameTypeVector, IntraRequestScheduler.empty]
    · simp
    · simp only [List.getElem?_map]
      rw [List.getElem?_set_self (by simpa using hi)]
      simp
    · intro j hj hne
      simp only [List.getElem?_map]
      rw [List.getElem?_set_ne (Ne.symm hne), List.getElem?_replicate_of_lt hj]
      simp
  · intro idx hidx
    unfold IntraFrameRequest pipelineNoPending
    rw [requestIntra_invalid _ _ (by simpa [IntraRequestScheduler.empty] using hidx)]

/-- C10 witness: concrete instance on a 3-stream internal-capture
configuration, with a valid request for stream 0 and invalid requests for
indices 3 and -1. -/
theorem C10_internal_capture_encode_witness :
    ((0 : Nat) < 3 ∧
      ∃ v, IntraFrameRequest
          (pipelineNoPending 3 FrameCadenceTracker.empty testController true)
          ((0 : Nat) : Int) =
          (.ok, pipelineNoPending 3 FrameCadenceTracker.empty testController true,
            [EncoderCall.encode v]) ∧
        v.length = 3 ∧ v[(0 : Nat)]? = some FrameType.Key ∧
        (∀ j, j < 3 → j ≠ 0 → v[j]? = some FrameType.Delta)) ∧
    IntraFrameRequest
        (pipelineNoPending 3 FrameCadenceTracker.empty testController true) 3 =
      (.invalidIndex,
        pipelineNoPending 3 FrameCadenceTracker.empty testController true, []) ∧
    IntraFrameRequest
        (pipelineNoPending 3 FrameCadenceTracker.empty testController true) (-1) =
      (.invalidIndex,
        pipelineNoPending 3 FrameCadenceTracker.empty testController true, []) :=
  ⟨⟨by decide,
    (C10_internal_capture_encode FrameCadenceTracker.empty testController 3).1 0
      (by decide)⟩,
   (C10_internal_capture_encode FrameCadenceTracker.empty testController 3).2 3
     (by decide),
   (C10_internal_capture_encode FrameCadenceTracker.empty testController 3).2 (-1)
     (by decide)⟩

/-- C2: with 3 temporal layers at any positive total bitrate `b`, the
real-time strategy yields per-layer framerates {7.5, 15, 30} and bitrates
{0.4b, 0.6b, b} at 30 fps input; at 15 fps the lower layers collapse to
framerates {7.5, 15, 15} and bitrates {0.6b, b, b}; at 7 fps all layers
collapse to the input framerate {7, 7, 7} and the full bitrate {b, b, b}. -/
theorem C2_realtime_graceful_degradation (b : ℚ) (hb : 0 < b) :
    RealTimeAllocation.ComputeAllocation b 30 3 =
      .ok ⟨[2 / 5 * b, 3 / 5 * b, b], [15 / 2, 15, 30]⟩ ∧
    RealTimeAllocation.ComputeAllocation b 15 3 =
      .ok ⟨[3 / 5 * b, b, b], [15 / 2, 15, 15]⟩ ∧
    RealTimeAllocation.ComputeAllocation b 7 3 =
      .ok ⟨[b, b, b], [7, 7, 7]⟩ := by
  have hcond : ¬(3 < 1 ∨ 3 < 3 ∨ b ≤ 0) := by
    push_neg
    exact ⟨by norm_num, by norm_num, hb⟩
  unfold RealTimeAllocation.ComputeAllocation
  rw [if_neg hcond, if_neg hcond, if_neg hcond]
  refine ⟨?_, ?_, ?_⟩
  · have hm : min 3 (layersForFramerate 30) = 3 := by norm_num [layersForFramerate]
    simp only [hm]
    norm_num [List.range_succ, bitrateFraction]
  · have hm : min 3 (layersForFramerate 15) = 2 := by norm_num [layersForFramerate]
    simp only [hm]
    norm_num [List.range_succ, bitrateFraction]
  · have hm : min 3 (layersForFramerate 7) = 1 := by norm_num [layersForFramerate]
    simp only [hm]
    norm_num [List.range_succ, bitrateFraction]

/-- C2 witness: the concrete 300 kbps scenario of the real-time strategy
test: framerates {7.5, 15, 30} with bitrates {120, 180, 300} at 30 fps,
{7.5, 15, 15} with {180, 300, 300} at 15 fps, and {7, 7, 7} with
{300, 300, 300} at 7 fps. -/
theorem C2_realtime_graceful_degradation_witness :
    RealTimeAllocation.ComputeAllocation 300 30 3 =
      .ok ⟨[120, 180, 300], [15 / 2, 15, 30]⟩ ∧
    RealTimeAllocation.ComputeAllocation 300 15 3 =
      .ok ⟨[180, 300, 300], [15 / 2, 15, 15]⟩ ∧
    RealTimeAllocation.ComputeAllocation 300 7 3 =
      .ok ⟨[300, 300, 300], [7, 7, 7]⟩ := by
  obtain ⟨h1, h2, h3⟩ := C2_realtime_graceful_degradation 300 (by norm_num)
  refine ⟨?_, ?_, ?_⟩
  · rw [h1]; norm_num
  · rw [h2]; norm_num
  · rw [h3]

/-- C3: for every layer count in {1, 2, 3} and every positive total bitrate
`b`, `FixedAllocation.ComputeAllocation` returns a non-decreasing per-layer
bitrate sequence whose last element equals `b`, and for 3 layers the
per-layer framerate sequence is exactly {f/4, f/2, f} for every total
framerate `f`. -/
theorem C3_fixed_allocation_shape (b f : ℚ) (N : Nat) (hb : 0 < b)
    (hN1 : 1 ≤ N) (hN3 : N ≤ 3) :
    ∃ a, FixedAllocation.ComputeAllocation b f N = .ok a ∧
      a.perLayerBitrateKbps.Chain' (· ≤ ·) ∧
      a.perLayerBitrateKbps.getLast? = some b ∧
      (N = 3 → a.perLayerFramerateFps = [f / 4, f / 2, f]) := by
  interval_cases N
  · refine ⟨⟨[b], [f]⟩, ?_, ?_, ?_, ?_⟩
    · unfold FixedAllocation.ComputeAllocation
      rw [if_neg (by push_neg; exact ⟨by norm_num, by norm_num, hb⟩)]
      norm_num [List.range_succ, bitrateFraction]
    · simp
    · simp
    · intro h
      exact absurd h (by norm_num)
  · refine ⟨⟨[3 / 5 * b, b], [f / 2, f]⟩, ?_, ?_, ?_, ?_⟩
    · unfold FixedAllocation.ComputeAllocation
      rw [if_neg (by push_neg; exact ⟨by norm_num, by norm_num, hb⟩)]
      norm_num [List.range_succ, bitrateFraction]
    · simp [List.chain'_cons]
      linarith
    · simp
    · intro h
      exact absurd h (by norm_num)
  · refine ⟨⟨[2 / 5 * b, 3 / 5 * b, b], [f / 4, f / 2, f]⟩, ?_, ?_, ?_, ?_⟩
    · unfold FixedAllocation.ComputeAllocation
      rw [if_neg (by push_neg; exact ⟨by norm_num, by norm_num, hb⟩)]
      norm_num [List.range_succ, bitrateFraction]
    · simp [List.chain'_cons]
      constructor
      · linarith
      · linarith
    · simp
    · intro h
      rfl

/-- C3 witness: the concrete fixed-strategy scenario at 300 kbps — per-layer
framerates {7.5, 15, 30} at 30 fps input and {3.75, 7.5, 15} at 15 fps, with
the bitrate split {120, 180, 300} identical between the two runs. -/
theorem C3_fixed_allocation_shape_witness :
    FixedAllocation.ComputeAllocation 300 30 3 =
      .ok ⟨[120, 180, 300], [15 / 2, 15, 30]⟩ ∧
    FixedAllocation.ComputeAllocation 300 15 3 =
      .ok ⟨[120, 180, 300], [15 / 4, 15 / 2, 15]⟩ ∧
    (∃ a, FixedAllocation.ComputeAllocation 300 30 3 = .ok a ∧
      a.perLayerBitrateKbps.Chain' (· ≤ ·) ∧
      a.perLayerBitrateKbps.getLast? = some 300 ∧
      ((3 : Nat) = 3 → a.perLayerFramerateFps = [30 / 4, 30 / 2, 30])) := by
  refine ⟨?_, ?_, C3_fixed_allocation_shape 300 30 3 (by norm_num) (by norm_num)
    (by norm_num)⟩
  · unfold FixedAllocation.ComputeAllocation
    rw [if_neg (by norm_num)]
    norm_num [List.range_succ, bitrateFraction]
  · unfold FixedAllocation.ComputeAllocation
    rw [if_neg (by norm_num)]
    norm_num [List.range_succ, bitrateFraction]

theorem allocationInvariant_mk1 (b f : ℚ) :
    AllocationInvariant ⟨[b], [f]⟩ b f := by
  unfold AllocationInvariant
  refine ⟨?_, ?_, ?_, ?_⟩ <;> simp

theorem allocationInvariant_mk2 (x u b f : ℚ) (h1 : x ≤ b) (h2 : u ≤ f) :
    AllocationInvariant ⟨[x, b], [u, f]⟩ b f := by
  unfold AllocationInvariant
  refine ⟨?_, ?_, ?_, ?_⟩ <;> simp [List.chain'_cons, h1, h2]

theorem allocationInvariant_mk3 (x y u v b f : ℚ) (h1 : x ≤ y) (h2 : y ≤ b)
    (h3 : u ≤ v) (h4 : v ≤ f) :
    AllocationInvariant ⟨[x, y, b], [u, v, f]⟩ b f := by
  unfold AllocationInvariant
  refine ⟨?_, ?_, ?_, ?_⟩ <;> simp [List.chain'_cons, h1, h2, h3, h4]

theorem layersForFramerate_cases (f : ℚ) :
    layersForFramerate f = 3 ∨ layersForFramerate f = 2 ∨
      layersForFramerate f = 1 := by
  unfold layersForFramerate
  rcases le_or_lt 20 f with h | h
  · simp [h]
  · rcases le_or_lt 10 f with h2 | h2
    · simp [not_le.mpr h, h2]
    · simp [not_le.mpr h, not_le.mpr h2]

/-- C7: for every layer count in {1, 2, 3}, every positive total bitrate
and every positive total framerate, the allocation produced by either
strategy has non-decreasing per-layer bitrate and framerate sequences whose
last elements equal the total bitrate and total framerate respectively. -/
theorem C7_allocation_invariant (b f : ℚ) (N : Nat) (hb : 0 < b)
    (hf : 0 < f) (hN1 : 1 ≤ N) (hN3 : N ≤ 3) :
    (∃ a, FixedAllocation.ComputeAllocation b f N = .ok a ∧
      AllocationInvariant a b f) ∧
    (∃ a, RealTimeAllocation.ComputeAllocation b f N = .ok a ∧
      AllocationInvariant a b f) := by
  have hLcases := layersForFramerate_cases f
  interval_cases N
  · constructor
    · refine ⟨⟨[b], [f]⟩, ?_, allocationInvariant_mk1 b f⟩
      unfold FixedAllocation.ComputeAllocation
      rw [if_neg (by push_neg; exact ⟨by norm_num, by norm_num, hb⟩)]
      norm_num [List.range_succ, bitrateFraction]
    · refine ⟨⟨[b], [f]⟩, ?_, allocationInvariant_mk1 b f⟩
      unfold RealTimeAllocation.ComputeAllocation
      rw [if_neg (by push_neg; exact ⟨by norm_num, by norm_num, hb⟩)]
      rcases hLcases with hL | hL | hL <;>
        simp only [hL] <;> norm_num [List.range_succ, bitrateFraction]
  · constructor
    · refine ⟨⟨[3 / 5 * b, b], [f / 2, f]⟩, ?_,
        allocationInvariant_mk2 _ _ b f (by linarith) (by linarith)⟩
      unfold FixedAllocation.ComputeAllocation
      rw [if_neg (by push_neg; exact ⟨by norm_num, by norm_num, hb⟩)]
      norm_num [List.range_succ, bitrateFraction]
    · rcases hLcases with hL | hL | hL
      · refine ⟨⟨[3 / 5 * b, b], [f / 2, f]⟩, ?_,
          allocationInvariant_mk2 _ _ b f (by linarith) (by linarith)⟩
        unfold RealTimeAllocation.ComputeAllocation
        rw [if_neg (by push_neg; exact ⟨by norm_num, by norm_num, hb⟩)]
        simp only [hL]
        norm_num [List.range_succ, bitrateFraction]
      · refine ⟨⟨[3 / 5 * b, b], [f / 2, f]⟩, ?_,
          allocationInvariant_mk2 _ _ b f (by linarith) (by linarith)⟩
        unfold RealTimeAllocation.ComputeAllocation
        rw [if_neg (by push_neg; exact ⟨by norm_num, by norm_num, hb⟩)]
        simp only [hL]
        norm_num [List.range_succ, bitrateFraction]
      · refine ⟨⟨[b, b], [f, f]⟩, ?_,
          allocationInvariant_mk2 b f b f le_rfl le_rfl⟩
        unfold RealTimeAllocation.ComputeAllocation
        rw [if_neg (by push_neg; exact ⟨by norm_num, by norm_num, hb⟩)]
        simp only [hL]
        norm_num [List.range_succ, bitrateFraction]
  · constructor
    · refine ⟨⟨[2 / 5 * b, 3 / 5 * b, b], [f / 4, f / 2, f]⟩, ?_,
        allocationInvariant_mk3 _ _ _ _ b f (by linarith) (by linarith)
          (by linarith) (by linarith)⟩
      unfold FixedAllocation.ComputeAllocation
      rw [if_neg (by push_neg; exact ⟨by norm_num, by norm_num, hb⟩)]
      norm_num [List.range_succ, bitrateFraction]
    · rcases hLcases with hL | hL | hL
      · refine ⟨⟨[2 / 5 * b, 3 / 5 * b, b], [f / 4, f / 2, f]⟩, ?_,
          allocationInvariant_mk3 _ _ _ _ b f (by linarith) (by linarith)
            (by linarith) (by linarith)⟩
        unfold RealTimeAllocation.ComputeAllocation
        rw [if_neg (by push_neg; exact ⟨by norm_num, by norm_num, hb⟩)]
        simp only [hL]
        norm_num [List.range_succ, bitrateFraction]
      · refine ⟨⟨[3 / 5 * b, b, b], [f / 2, f, f]⟩, ?_,
          allocationInvariant_mk3 _ _ _ _ b f (by linarith) le_rfl
            (by linarith) le_rfl⟩
        unfold RealTimeAllocation.ComputeAllocation
        rw [if_neg (by push_neg; exact ⟨by norm_num, by norm_num, hb⟩)]
        simp only [hL]
        norm_num [List.range_succ, bitrateFraction]
      · refine ⟨⟨[b, b, b], [f, f, f]⟩, ?_,
          allocationInvariant_mk3 b b f f b f le_rfl le_rfl le_rfl le_rfl⟩
        unfold RealTimeAllocation.ComputeAllocation
        rw [if_neg (by push_neg; exact ⟨by norm_num, by norm_num, hb⟩)]
        simp only [hL]
        norm_num [List.range_succ, bitrateFraction]

/-- C7 witness: the invariant instantiated at 300 kbps total bitrate, 30 fps
total framerate and 3 layers. -/
theorem C7_allocation_invariant_witness :
    (0 : ℚ) < 300 ∧ (0 : ℚ) < 30 ∧
    ((∃ a, FixedAllocation.ComputeAllocation 300 30 3 = .ok a ∧
        AllocationInvariant a 300 30) ∧
      (∃ a, RealTimeAllocation.ComputeAllocation 300 30 3 = .ok a ∧
        AllocationInvariant a 300 30)) :=
  ⟨by norm_num, by norm_num,
   C7_allocation_invariant 300 30 3 (by norm_num) (by norm_num) (by norm_num)
     (by norm_num)⟩

/-- C1: across two consecutive `OnChannelParameters` calls carrying
identical (bitrate, loss fraction, rtt) with the framerate estimate
unchanged between them, the encoder sees at most one `SetRates` and at most
one `SetChannelParameters`; more generally a call whose computed values
equal the suppression caches issues nothing to the encoder. -/
theorem C1_call_suppression (c : ChannelAdaptationController)
    (bps loss rtt : Nat) :
    (((OnChannelParameters c bps loss rtt).2 ++
        (OnChannelParameters (OnChannelParameters c bps loss rtt).1
          bps loss rtt).2).countP EncoderCall.isSetRates ≤ 1) ∧
    (((OnChannelParameters c bps loss rtt).2 ++
        (OnChannelParameters (OnChannelParameters c bps loss rtt).1
          bps loss rtt).2).countP EncoderCall.isSetChannelParams ≤ 1) ∧
    (c.lastSentRates = some ⟨(bps : ℚ) / 1000, c.framerateFps⟩ →
      (OnChannelParameters c bps loss rtt).2.countP
        EncoderCall.isSetRates = 0) ∧
    (c.lastSentChannelParams = some ⟨loss, rtt⟩ →
      (OnChannelParameters c bps loss rtt).2.countP
        EncoderCall.isSetChannelParams = 0) := by
  have hsecond : (OnChannelParameters (OnChannelParameters c bps loss rtt).1
      bps loss rtt).2 = [] := by
    unfold OnChannelParameters
    simp
  refine ⟨?_, ?_, ?_, ?_⟩
  · rw [hsecond, List.append_nil]
    unfold OnChannelParameters
    by_cases h1 : c.lastSentRates = some ⟨(bps : ℚ) / 1000, c.framerateFps⟩ <;>
      by_cases h2 : c.lastSentChannelParams = some ⟨loss, rtt⟩ <;>
        simp [h1, h2, List.countP_append, List.countP_cons,
          EncoderCall.isSetRates, EncoderCall.isSetChannelParams]
  · rw [hsecond, List.append_nil]
    unfold OnChannelParameters
    by_cases h1 : c.lastSentRates = some ⟨(bps : ℚ) / 1000, c.framerateFps⟩ <;>
      by_cases h2 : c.lastSentChannelParams = some ⟨loss, rtt⟩ <;>
        simp [h1, h2, List.countP_append, List.countP_cons,
          EncoderCall.isSetRates, EncoderCall.isSetChannelParams]
  · intro h1
    unfold OnChannelParameters
    by_cases h2 : c.lastSentChannelParams = some ⟨loss, rtt⟩ <;>
      simp [h1, h2, List.countP_append, List.countP_cons,
        EncoderCall.isSetRates, EncoderCall.isSetChannelParams]
  · intro h2
    unfold OnChannelParameters
    by_cases h1 : c.lastSentRates = some ⟨(bps : ℚ) / 1000, c.framerateFps⟩ <;>
      simp [h1, h2, List.countP_append, List.countP_cons,
        EncoderCall.isSetRates, EncoderCall.isSetChannelParams]

/-- C1 witness: the test scenario — channel parameters (600 kbps, loss 4,
rtt 200) delivered twice in a row to the freshly registered controller. -/
theorem C1_call_suppression_witness :
    (((OnChannelParameters testController 600000 4 200).2 ++
        (OnChannelParameters (OnChannelParameters testController 600000 4 200).1
          600000 4 200).2).countP EncoderCall.isSetRates ≤ 1) ∧
    (((OnChannelParameters testController 600000 4 200).2 ++
        (OnChannelParameters (OnChannelParameters testController 600000 4 200).1
          600000 4 200).2).countP EncoderCall.isSetChannelParams ≤ 1) ∧
    (testController.lastSentRates =
        some ⟨((600000 : Nat) : ℚ) / 1000, testController.framerateFps⟩ →
      (OnChannelParameters testController 600000 4 200).2.countP
        EncoderCall.isSetRates = 0) ∧
    (testController.lastSentChannelParams = some ⟨4, 200⟩ →
      (OnChannelParameters testController 600000 4 200).2.countP
        EncoderCall.isSetChannelParams = 0) :=
  C1_call_suppression testController 600000 4 200

/-- C9 counterexample: on a freshly registered pipeline with an empty
cadence tracker the framerate estimate is unavailable, yet the public
`SetChannelParameters` entry returns an error (as documented by the
`InsertFrames` fixture), so an unavailable estimate does make a public
entry return an error — the claim's universal clause is false. -/
theorem C9_public_entry_error_counterexample :
    EstimateFps
        (pipelineNoPending 3 FrameCadenceTracker.empty testController
          false).tracker 1000 = none ∧
    (SetChannelParameters
        (pipelineNoPending 3 FrameCadenceTracker.empty testController false)
        600000 0 200).1 = .error := by
  constructor
  · decide
  · decide

/-- C9 (amended): when the cadence tracker cannot yet produce a framerate
estimate, `Process` silently skips publishing — it changes no state, issues
no encoder call, and returns success rather than an error; the entry that
does surface a failure in that situation is `SetChannelParameters`, which
returns an error without state change or encoder calls while fewer than two
frames are buffered and the framerate therefore cannot be calculated. -/
theorem C9_no_estimate_tick_silent (p : EncodePipeline) (nowMs : Int)
    (bps loss rtt : Nat)
    (hest : EstimateFps p.tracker nowMs = none) :
    Process p nowMs = (.ok, p, []) ∧
    (p.tracker.samples.length < 2 →
      SetChannelParameters p bps loss rtt = (.error, p, [])) := by
  constructor
  · unfold Process OnTick
    rw [hest]
  · intro hlen
    unfold SetChannelParameters
    rw [if_pos hlen]

/-- C9 witness: a pipeline with an empty cadence tracker ticks without an
estimate, without encoder calls and without an error, while its
`SetChannelParameters` entry fails. -/
theorem C9_no_estimate_tick_silent_witness :
    EstimateFps
        (pipelineNoPending 3 FrameCadenceTracker.empty testController
          false).tracker 0 = none ∧
    (pipelineNoPending 3 FrameCadenceTracker.empty testController
        false).tracker.samples.length < 2 ∧
    (Process (pipelineNoPending 3 FrameCadenceTracker.empty testController
        false) 0 =
      (.ok, pipelineNoPending 3 FrameCadenceTracker.empty testController false,
        []) ∧
    ((pipelineNoPending 3 FrameCadenceTracker.empty testController
        false).tracker.samples.length < 2 →
      SetChannelParameters
          (pipelineNoPending 3 FrameCadenceTracker.empty testController false)
          600000 0 200 =
        (.error,
          pipelineNoPending 3 FrameCadenceTracker.empty testController false,
          []))) :=
  ⟨by decide, by decide,
   C9_no_estimate_tick_silent _ 0 600000 0 200 (by decide)⟩

theorem steadyTracker_samples (t0 d : Int) (k : Nat) :
    (steadyTracker t0 d k).samples =
      (List.range k).map (fun (j : Nat) => t0 + (j : Int) * d) := by
  induction k with
  | zero => rfl
  | succ n ih =>
    unfold steadyTracker at ih ⊢
    rw [List.range_succ, List.foldl_append, List.map_append]
    simp only [List.foldl_cons, List.foldl_nil, List.map_cons, List.map_nil]
    rw [RecordFrame, ih]

theorem estimateFps_formula (t : FrameCadenceTracker) (nowMs t0 : Int)
    (tl : List Int) (hcons : t.samples = t0 :: tl)
    (hx : t.samples.filter (fun s => decide (nowMs - s ≤ windowMs)) =
      t.samples)
    (hpos : 0 < nowMs - t0) :
    EstimateFps t nowMs =
      some ((t.samples.length : ℚ) * 1000 / ((nowMs - t0 : Int) : ℚ)) := by
  unfold EstimateFps
  simp only [hx]
  simp only [hcons, List.head?_cons]
  rw [if_pos hpos]

theorem estimateFps_steady (t0 d : Int) (k : Nat) (hdpos : 0 < d)
    (hk : 0 < k) (hw : (k : Int) * d ≤ windowMs) :
    EstimateFps (steadyTracker t0 d k) (t0 + (k : Int) * d) =
      some ((k : ℚ) * 1000 / (((k : Int) * d : Int) : ℚ)) := by
  have hw' : (k : Int) * d ≤ 2000 := hw
  have hfilter : ((steadyTracker t0 d k).samples.filter
      (fun s => decide (t0 + (k : Int) * d - s ≤ windowMs))) =
      (steadyTracker t0 d k).samples := by
    apply List.filter_eq_self.mpr
    intro a ha
    rw [steadyTracker_samples] at ha
    simp only [List.mem_map, List.mem_range] at ha
    obtain ⟨j, hj, rfl⟩ := ha
    simp only [decide_eq_true_eq]
    have hjd : 0 ≤ (j : Int) * d :=
      mul_nonneg (Int.natCast_nonneg j) hdpos.le
    have : windowMs = 2000 := rfl
    rw [this]
    linarith
  obtain ⟨m, hm⟩ := Nat.exists_eq_succ_of_ne_zero hk.ne'
  have hcons : (steadyTracker t0 d k).samples =
      t0 :: ((List.range m).map
        (fun (j : Nat) => t0 + ((j + 1 : Nat) : Int) * d)) := by
    rw [steadyTracker_samples, hm, List.range_succ_eq_map]
    simp [List.map_map, Function.comp]
  have hlen : ((steadyTracker t0 d k).samples.length : ℚ) = (k : ℚ) := by
    rw [steadyTracker_samples]
    simp
  have hkd : 0 < t0 + (k : Int) * d - t0 := by
    have : 0 < (k : Int) * d := by
      apply mul_pos _ hdpos
      exact_mod_cast hk
    omega
  rw [estimateFps_formula _ _ t0 _ hcons hfilter hkd, hlen]
  have hsub : t0 + (k : Int) * d - t0 = (k : Int) * d := by ring
  rw [hsub]

/-- C8: after steady frame submission at `fIn` fps (one frame every
`1000 / fIn` ms) filling the 2000 ms rate-statistics window, the cadence
estimate equals `fIn` exactly — frames-in-window times 1000 over the
elapsed time since the oldest retained sample — and the next tick issues
exactly one `SetRates` call to the encoder whose framerate argument is
`fIn`. -/
theorem C8_cadence_drives_setrates (t0 : Int) (fIn k : Nat)
    (c : ChannelAdaptationController) (hF : 0 < fIn)
    (hdvd : ((fIn : Int)) ∣ 1000) (hk : 0 < k)
    (hw : (k : Int) * (1000 / (fIn : Int)) ≤ windowMs)
    (hne : ((fIn : Nat) : ℚ) ≠ c.framerateFps)
    (hlast : ∀ r, c.lastSentRates = some r → r.framerateFps ≠ ((fIn : Nat) : ℚ)) :
    EstimateFps (steadyTracker t0 (1000 / (fIn : Int)) k)
        (t0 + (k : Int) * (1000 / (fIn : Int))) = some ((fIn : Nat) : ℚ) ∧
    (OnTick c (steadyTracker t0 (1000 / (fIn : Int)) k)
        (t0 + (k : Int) * (1000 / (fIn : Int)))).2 =
      [EncoderCall.setRates ((c.targetBitrateBps : ℚ) / 1000) ((fIn : Nat) : ℚ)] := by
  have hFi : (0 : Int) < (fIn : Int) := by exact_mod_cast hF
  have hfd : (fIn : Int) * (1000 / (fIn : Int)) = 1000 :=
    Int.mul_ediv_cancel' hdvd
  have hdpos : 0 < 1000 / (fIn : Int) := by nlinarith [hfd]
  have hest := estimateFps_steady t0 (1000 / (fIn : Int)) k hdpos hk hw
  have hval : ((k : ℚ) * 1000 /
      ((((k : Int) * (1000 / (fIn : Int)) : Int)) : ℚ)) = ((fIn : Nat) : ℚ) := by
    have hk0 : ((k : ℚ)) ≠ 0 := by
      exact_mod_cast hk.ne'
    have hd0 : (((1000 / (fIn : Int) : Int)) : ℚ) ≠ 0 := by
      exact_mod_cast hdpos.ne'
    have hfdQ : ((fIn : Nat) : ℚ) * (((1000 / (fIn : Int) : Int)) : ℚ) = 1000 := by
      exact_mod_cast hfd
    have hkd0 : (((k : Int) * (1000 / (fIn : Int)) : Int) : ℚ) ≠ 0 := by
      push_cast
      exact mul_ne_zero hk0 hd0
    rw [div_eq_iff hkd0]
    push_cast
    push_cast at hfdQ
    linear_combination (-(k : ℚ)) * hfdQ
  rw [hval] at hest
  refine ⟨hest, ?_⟩
  unfold OnTick
  simp only [hest]
  rw [if_neg hne, if_neg (fun heq => hlast _ heq rfl)]

/-- C8 witness: the test scenario — 40 frames at 20 fps (one every 50 ms)
starting at 1000 ms fill the 2000 ms window; the estimate is exactly 20 fps
and the tick issues one `SetRates` with framerate 20 to the freshly
registered controller (which cached 30 fps). -/
theorem C8_cadence_drives_setrates_witness :
    EstimateFps (steadyTracker 1000 (1000 / ((20 : Nat) : Int)) 40)
        (1000 + ((40 : Nat) : Int) * (1000 / ((20 : Nat) : Int))) =
      some (((20 : Nat) : Nat) : ℚ) ∧
    (OnTick testController (steadyTracker 1000 (1000 / ((20 : Nat) : Int)) 40)
        (1000 + ((40 : Nat) : Int) * (1000 / ((20 : Nat) : Int)))).2 =
      [EncoderCall.setRates ((testController.targetBitrateBps : ℚ) / 1000)
        (((20 : Nat) : Nat) : ℚ)] :=
  C8_cadence_drives_setrates 1000 20 40 testController (by decide)
    ⟨50, by decide⟩ (by decide) (by decide)
    (by norm_num [testController])
    (by
      intro r hr
      simp only [testController] at hr
      rw [Option.some.injEq] at hr
      rw [← hr]
      norm_num)

end VcmSpec
